import Mathlib

/-!
Verification of the aks-engine canonical cluster model (pkg/api/const.go) and of
the spec-modelled pieces of its version-conversion layer.

Shallow embedding conventions:
- Go pointers become `Option`; a nil-pointer dereference or an out-of-range
  slice index (a Go runtime panic) is modelled by an `Option` result of `none`.
- Go `string` is Lean `String`; Go byte slices used as IP addresses are
  `List Nat` with every element < 256.
- Machine integers are `Nat`/`Int` with explicit `% 2^64` where Go overflow
  semantics matter.
- A Go method with a pointer receiver that mutates its receiver
  (`Properties.GetClusterID`) returns the new receiver next to its result.
-/

namespace AksEngine

/-! Constants from pkg/api/const.go. -/

/-- Orchestrator type string constant for Kubernetes. -/
def Kubernetes : String := "Kubernetes"

/-- OSType string constant for Windows agent pools. -/
def Windows : String := "Windows"

/-- OSType string constant for Linux agent pools. -/
def Linux : String := "Linux"

/-- Availability profile constant for availability sets. -/
def AvailabilitySet : String := "AvailabilitySet"

/-- Availability profile constant for virtual machine scale sets. -/
def VirtualMachineScaleSets : String := "VirtualMachineScaleSets"

/-- Three character orchestrator code of self-hosted clusters. -/
def DefaultOrchestratorName : String := "k8s"

/-- Three character orchestrator code of clusters with hosted master profiles. -/
def DefaultHostedProfileMasterName : String := "aks"

/-- Hardcoded static IP address of Kubernetes master 0 (fallback on a malformed CIDR). -/
def DefaultFirstConsecutiveKubernetesStaticIP : String := "10.240.255.5"

/-- Static IP address of Kubernetes master 0 of VMSS masters. -/
def DefaultFirstConsecutiveKubernetesStaticIPVMSS : String := "10.240.0.4"

/-- IP address offset of master 0 for non-VMSS masters. -/
def DefaultKubernetesFirstConsecutiveStaticIPOffset : Nat := 5

/-- IP address offset of master 0 for VMSS masters. -/
def DefaultKubernetesFirstConsecutiveStaticIPOffsetVMSS : Nat := 4

/-- Slash-separated segment index of the subnet name in a subnet resource ID. -/
def DefaultSubnetNameResourceSegmentIndex : Nat := 10

/-- Slash-separated segment index of the resource group in a subnet resource ID. -/
def DefaultVnetResourceGroupSegmentIndex : Nat := 4

/-- Slash-separated segment index of the virtual network name in a subnet resource ID. -/
def DefaultVnetNameResourceSegmentIndex : Nat := 8

end AksEngine

namespace GoStd

/-- Go strings.Split with a one-character separator, on character lists: split
around every occurrence of `sep`; the empty input yields one empty field. -/
def splitChar (sep : Char) : List Char → List (List Char)
  | [] => [[]]
  | c :: cs =>
    if c = sep then [] :: splitChar sep cs
    else
      match splitChar sep cs with
      | [] => [[c]]
      | g :: gs => (c :: g) :: gs

/-- Go strings.Split(s, sep) for a one-character separator, as Strings. -/
def split (s : String) (sep : Char) : List String :=
  (splitChar sep s.data).map (fun l => String.mk l)

end GoStd

namespace GoNet

/-- Go net.dtoi: parse a decimal prefix. Returns (value, characters consumed,
ok); overflow at 0xFFFFFF and an empty digit prefix give ok = false. -/
def dtoiAux : List Char → Nat → Nat → Nat × Nat × Bool
  | [], n, i => (n, i, i != 0)
  | c :: cs, n, i =>
    if c.isDigit then
      let n2 := n * 10 + (c.toNat - 48)
      if 0xFFFFFF ≤ n2 then (0xFFFFFF, i, false)
      else dtoiAux cs n2 (i + 1)
    else (n, i, i != 0)

/-- Go net.dtoi entry point. -/
def dtoi (s : List Char) : Nat × Nat × Bool := dtoiAux s 0 0

/-- Hexadecimal digit value of a character, or none. -/
def hexVal (c : Char) : Option Nat :=
  if '0' ≤ c ∧ c ≤ '9' then some (c.toNat - 48)
  else if 'a' ≤ c ∧ c ≤ 'f' then some (c.toNat - 97 + 10)
  else if 'A' ≤ c ∧ c ≤ 'F' then some (c.toNat - 65 + 10)
  else none

/-- Go net.xtoi: parse a hexadecimal prefix; overflow at 0xFFFFFF returns 0
with ok = false, an empty digit prefix gives ok = false. -/
def xtoiAux : List Char → Nat → Nat → Nat × Nat × Bool
  | [], n, i => (n, i, i != 0)
  | c :: cs, n, i =>
    match hexVal c with
    | none => (n, i, i != 0)
    | some v =>
      let n2 := n * 16 + v
      if 0xFFFFFF ≤ n2 then (0, i, false)
      else xtoiAux cs n2 (i + 1)

/-- Go net.xtoi entry point. -/
def xtoi (s : List Char) : Nat × Nat × Bool := xtoiAux s 0 0

/-- One dotted-decimal field of an IPv4 address: a decimal number of at most
255, returned with the rest of the input. -/
def parseByteField (s : List Char) : Option (Nat × List Char) :=
  let r := dtoi s
  if r.2.2 = true ∧ r.1 ≤ 255 then some (r.1, s.drop r.2.1) else none

/-- Remaining ".d" fields of an IPv4 address. -/
def parseIPv4Fields : Nat → List Char → Option (List Nat × List Char)
  | 0, s => some ([], s)
  | k + 1, s =>
    match s with
    | '.' :: s1 =>
      match parseByteField s1 with
      | none => none
      | some (n, rest) =>
        match parseIPv4Fields k rest with
        | none => none
        | some (ns, r) => some (n :: ns, r)
    | _ => none

/-- Go net.parseIPv4: four dotted-decimal fields, each 0..255 (leading zeros
tolerated as in Go's dtoi), consuming the whole input. Returns 4 bytes. -/
def parseIPv4 (s : List Char) : Option (List Nat) :=
  match parseByteField s with
  | none => none
  | some (a, rest) =>
    match parseIPv4Fields 3 rest with
    | some (ns, []) => some (a :: ns)
    | _ => none

/-- Go net.splitHostZone: strip a "%zone" suffix when the percent sign is not
the first character. -/
def lastIndexOf (c : Char) (s : List Char) : Option Nat :=
  match s.reverse.findIdx? (fun x => x = c) with
  | none => none
  | some j => some (s.length - 1 - j)

/-- Host part of an address that may carry a "%zone" suffix. -/
def splitHostZone (s : List Char) : List Char :=
  match lastIndexOf '%' s with
  | some i => if 0 < i then s.take i else s
  | none => s

/-- Loop body of Go net.parseIPv6. State: input, bytes filled so far (`i` in
Go is `acc.length`), position of the "::" ellipsis if seen. The fuel bounds
the at most eight 16-bit groups. Returns (bytes, ellipsis) on normal exit. -/
def parseIPv6Loop : Nat → List Char → List Nat → Option Nat →
    Option (List Nat × Option Nat)
  | 0, s, acc, ell => if s = [] then some (acc, ell) else none
  | fuel + 1, s, acc, ell =>
    if 16 ≤ acc.length then (if s = [] then some (acc, ell) else none)
    else
      let r := xtoi s
      if r.2.2 = false ∨ 0xFFFF < r.1 then none
      else if (s.drop r.2.1).head? = some '.' then
        -- embedded IPv4 trailer
        if (ell = none ∧ acc.length ≠ 12) ∨ 16 < acc.length + 4 then none
        else
          match parseIPv4 s with
          | none => none
          | some ip4 => some (acc ++ ip4, ell)
      else
        let acc2 := acc ++ [r.1 / 256, r.1 % 256]
        let s2 := s.drop r.2.1
        if s2 = [] then some (acc2, ell)
        else if s2.head? ≠ some ':' ∨ s2.length = 1 then none
        else
          let s3 := s2.drop 1
          if s3.head? = some ':' then
            if ell.isSome then none
            else
              let s4 := s3.drop 1
              if s4 = [] then some (acc2, some acc2.length)
              else parseIPv6Loop fuel s4 acc2 (some acc2.length)
          else parseIPv6Loop fuel s3 acc2 ell

/-- Go net.parseIPv6: 16 bytes, "::" compression and an embedded IPv4 trailer
supported. -/
def parseIPv6 (s : List Char) : Option (List Nat) :=
  match s with
  | ':' :: ':' :: rest =>
    if rest = [] then some (List.replicate 16 0)
    else
      match parseIPv6Loop 8 rest [] (some 0) with
      | none => none
      | some (acc, ell) => expand acc ell
  | _ =>
    match parseIPv6Loop 8 s [] none with
    | none => none
    | some (acc, ell) => expand acc ell
where
  /-- Post-loop expansion of the "::" ellipsis to the missing zero bytes. -/
  expand (acc : List Nat) (ell : Option Nat) : Option (List Nat) :=
    if acc.length < 16 then
      match ell with
      | none => none
      | some e => some (acc.take e ++ List.replicate (16 - acc.length) 0 ++ acc.drop e)
    else if ell.isSome then none
    else some acc

/-- Go net.CIDRMask(ones, bits): byte j carries min 8 (ones - 8*j) leading one
bits. -/
def cidrMask (ones bits : Nat) : List Nat :=
  (List.range (bits / 8)).map (fun j => 256 - 2 ^ (8 - min 8 (ones - 8 * j)))

/-- Leading-ones count of a single contiguous mask byte, none when the byte is
not of the form 1...10...0. -/
def byteOnes (b : Nat) : Option Nat :=
  if b = 0 then some 0
  else if b = 128 then some 1
  else if b = 192 then some 2
  else if b = 224 then some 3
  else if b = 240 then some 4
  else if b = 248 then some 5
  else if b = 252 then some 6
  else if b = 254 then some 7
  else if b = 255 then some 8
  else none

/-- Go net.simpleMaskLength: total leading-ones count of a contiguous mask. -/
def maskOnes : List Nat → Option Nat
  | [] => some 0
  | b :: rest =>
    if b = 255 then (maskOnes rest).map (fun k => 8 + k)
    else
      match byteOnes b with
      | none => none
      | some k => if rest.all (fun x => x = 0) then some k else none

/-- Go net.IPMask.Size: (ones, bits), or (0, 0) for a non-contiguous mask. -/
def maskSize (m : List Nat) : Nat × Nat :=
  match maskOnes m with
  | none => (0, 0)
  | some k => (k, 8 * m.length)

/-- Decimal digits of a natural number, most significant first; the fuel
(strictly more than the digit count) keeps the recursion structural. -/
def natDigitsAux (fuel : Nat) (n : Nat) : List Char :=
  match fuel with
  | 0 => []
  | fuel + 1 =>
    if n < 10 then [Char.ofNat (48 + n)]
    else natDigitsAux fuel (n / 10) ++ [Char.ofNat (48 + n % 10)]

/-- Decimal digits of a natural number, most significant first. -/
def natDigits (n : Nat) : List Char := natDigitsAux (n + 1) n

/-- Go uitoa: decimal rendering of an unsigned integer. -/
def uitoa (n : Nat) : String := String.mk (natDigits n)

/-- Lowercase hexadecimal rendering without leading zeros (Go appendHex). -/
def hexRepr (n : Nat) : String := String.mk (Nat.toDigits 16 n)

/-- Go net.hexString: two lowercase hex digits per byte. -/
def hexString (b : List Nat) : String :=
  String.join (b.map (fun x => String.mk [(Nat.toDigits 16 (x / 16 % 16)).headD '0',
    (Nat.toDigits 16 (x % 16)).headD '0']))

/-- Go net.IP.To4: a 4-byte address itself, the low 4 bytes of a 16-byte
v4-in-v6 address, none otherwise. -/
def ipTo4 (ip : List Nat) : Option (List Nat) :=
  if ip.length = 4 then some ip
  else if ip.length = 16 ∧ (ip.take 10).all (fun x => x = 0) ∧
      ip.getD 10 0 = 255 ∧ ip.getD 11 0 = 255 then some (ip.drop 12)
  else none

/-- Length of the zero 16-bit-group run at the head. -/
def zeroRunLen : List Nat → Nat
  | 0 :: rest => 1 + zeroRunLen rest
  | _ => 0

/-- Longest (leftmost on ties) run of zero groups: Go's e0/e1 scan of
IP.String, on group indices. Fuel bounds the eight groups. -/
def bestRunAux : Nat → List Nat → Nat → Nat × Nat → Nat × Nat
  | 0, _, _, best => best
  | fuel + 1, g, i, best =>
    if 8 ≤ i then best
    else
      let r := zeroRunLen (g.drop i)
      if 0 < r ∧ best.2 < r then bestRunAux fuel g (i + r + 1) (i, r)
      else bestRunAux fuel g (i + 1) best

/-- The run Go compresses to "::": the longest zero-group run when it spans at
least two groups. -/
def bestRun (g : List Nat) : Option (Nat × Nat) :=
  let b := bestRunAux 9 g 0 (0, 0)
  if b.2 ≤ 1 then none else some (b.1, b.1 + b.2)

/-- Rendering loop of Go net.IP.String for a 16-byte address, on the eight
16-bit groups with the compressed run `e`. -/
def renderGroups : Nat → List Nat → Nat → Option (Nat × Nat) → String → String
  | 0, _, _, _, acc => acc
  | fuel + 1, g, i, e, acc =>
    if 8 ≤ i then acc
    else
      match e with
      | some (e0, e1) =>
        if i = e0 then
          let acc2 := acc ++ "::"
          if 8 ≤ e1 then acc2
          else renderGroups fuel g (e1 + 1) e (acc2 ++ hexRepr (g.getD e1 0))
        else
          renderGroups fuel g (i + 1) e
            ((if 0 < i then acc ++ ":" else acc) ++ hexRepr (g.getD i 0))
      | none =>
        renderGroups fuel g (i + 1) e
          ((if 0 < i then acc ++ ":" else acc) ++ hexRepr (g.getD i 0))

/-- The eight 16-bit groups of a 16-byte address. -/
def groups16 (ip : List Nat) : List Nat :=
  (List.range 8).map (fun j => ip.getD (2 * j) 0 * 256 + ip.getD (2 * j + 1) 0)

/-- Go net.IP.String: dotted decimal for (v4-in-v6) 4-byte addresses, RFC 5952
style hex groups with "::" compression for 16-byte ones. -/
def ipString (ip : List Nat) : String :=
  if ip.length = 0 then "<nil>"
  else
    match ipTo4 ip with
    | some q =>
      uitoa (q.getD 0 0) ++ "." ++ uitoa (q.getD 1 0) ++ "." ++
        uitoa (q.getD 2 0) ++ "." ++ uitoa (q.getD 3 0)
    | none =>
      if ip.length ≠ 16 then "?" ++ hexString ip
      else
        let g := groups16 ip
        renderGroups 9 g 0 (bestRun g) ""

/-- Index of the first slash, splitting "addr/mask" (Go byteIndex in
ParseCIDR). -/
def splitSlash (s : List Char) : Option (List Char × List Char) :=
  match s.findIdx? (fun c => c = '/') with
  | none => none
  | some i => some (s.take i, s.drop (i + 1))

/-- Go net.ParseCIDR: returns the masked network address bytes and the mask
bytes of the subnet (the components of the returned IPNet). The address is
parsed as IPv4 first, as IPv6 (with an optional "%zone") otherwise; the
decimal prefix length must consume the whole mask string and be at most the
address bit width. -/
def parseCIDR (s : String) : Option (List Nat × List Nat) :=
  match splitSlash s.data with
  | none => none
  | some (addr, maskStr) =>
    let parsed : Option (List Nat) × Nat :=
      match parseIPv4 addr with
      | some ip4 => (some ip4, 4)
      | none => (parseIPv6 (splitHostZone addr), 16)
    match parsed.1 with
    | none => none
    | some ip =>
      let r := dtoi maskStr
      if r.2.2 = false ∨ r.2.1 ≠ maskStr.length ∨ 8 * parsed.2 < r.1 then none
      else
        let mask := cidrMask r.1 (8 * parsed.2)
        some (ip.zipWith (fun a b => a &&& b) mask, mask)

end GoNet

namespace AksEngine

/-! The canonical data model from pkg/api/const.go, restricted to the fields
read by the functions under verification. Go pointer fields are `Option`. -/

/-- OrchestratorProfile contains orchestrator properties. -/
structure OrchestratorProfile where
  OrchestratorType : String
  OrchestratorVersion : String
deriving DecidableEq, Repr

/-- MasterProfile represents the definition of the master cluster. -/
structure MasterProfile where
  Count : Nat
  DNSPrefix : String
  VnetSubnetID : String
  AvailabilityProfile : String
deriving DecidableEq, Repr

/-- AgentPoolProfile represents an agent pool definition. -/
structure AgentPoolProfile where
  Name : String
  Count : Nat
  OSType : String
  Distro : String
  VnetSubnetID : String
  AvailabilityProfile : String
deriving DecidableEq, Repr

/-- HostedMasterProfile defines a hosted master. -/
structure HostedMasterProfile where
  DNSPrefix : String
  FQDN : String
deriving DecidableEq, Repr

/-- KubernetesAddon defines an addon with configuration; `Enabled` is a Go
`*bool` (tri-state). -/
structure KubernetesAddon where
  Name : String
  Enabled : Option Bool
  Data : String
deriving DecidableEq, Repr

/-- KubernetesConfig, restricted to the addon list read here. -/
structure KubernetesConfig where
  Addons : List KubernetesAddon
deriving DecidableEq, Repr

/-- Properties represents the ACS cluster definition, restricted to the fields
read by the functions under verification. `ClusterID` is the memoization field
of GetClusterID. A Go nil slice of agent pools is modelled as `[]`. -/
structure Properties where
  ClusterID : String
  OrchestratorProfile : Option OrchestratorProfile
  MasterProfile : Option MasterProfile
  HostedMasterProfile : Option HostedMasterProfile
  AgentPoolProfiles : List AgentPoolProfile
deriving DecidableEq, Repr

/-- IsKubernetes returns true if this template is for Kubernetes orchestrator. -/
def OrchestratorProfile.IsKubernetes (o : OrchestratorProfile) : Bool :=
  o.OrchestratorType == Kubernetes

/-- IsCustomVNET returns true if the customer brought their own VNET. -/
def MasterProfile.IsCustomVNET (m : MasterProfile) : Bool :=
  0 < m.VnetSubnetID.length

/-- IsVirtualMachineScaleSets returns true if the master availability profile
is VMSS. -/
def MasterProfile.IsVirtualMachineScaleSets (m : MasterProfile) : Bool :=
  m.AvailabilityProfile == VirtualMachineScaleSets

/-- IsCustomVNET returns true if the customer brought their own VNET. -/
def AgentPoolProfile.IsCustomVNET (a : AgentPoolProfile) : Bool :=
  0 < a.VnetSubnetID.length

/-- IsEnabled returns true if the addon is enabled (false when the tri-state
`Enabled` pointer is nil). -/
def KubernetesAddon.IsEnabled (a : KubernetesAddon) : Bool :=
  match a.Enabled with
  | none => false
  | some b => b

/-- Scan of the addon list with early break on the first matching name; the
`var` zero value (all fields empty, `Enabled` nil) when no addon matches. -/
def findAddonByName (addonName : String) : List KubernetesAddon → KubernetesAddon
  | [] => { Name := "", Enabled := none, Data := "" }
  | a :: rest => if a.Name == addonName then a else findAddonByName addonName rest

/-- GetAddonByName returns the addon with name `addonName`. -/
def KubernetesConfig.GetAddonByName (k : KubernetesConfig) (addonName : String) :
    KubernetesAddon :=
  findAddonByName addonName k.Addons

/-- IsAddonEnabled checks whether the addon named `addonName` is enabled,
based on the `Enabled` field of the addon found by GetAddonByName. -/
def KubernetesConfig.IsAddonEnabled (k : KubernetesConfig) (addonName : String) :
    Bool :=
  (k.GetAddonByName addonName).IsEnabled

/-- HasWindows returns true if the cluster contains windows agent pools. -/
def Properties.HasWindows (p : Properties) : Bool :=
  p.AgentPoolProfiles.any (fun a => a.OSType == Windows)

/-- IsHostedMasterProfile returns true if the cluster has a hosted master. -/
def Properties.IsHostedMasterProfile (p : Properties) : Bool :=
  p.HostedMasterProfile.isSome

/-- K8sOrchestratorName returns the 3 character orchestrator code for
kubernetes-based clusters; `none` models the nil-pointer panic when
`OrchestratorProfile` is nil. -/
def Properties.K8sOrchestratorName (p : Properties) : Option String :=
  match p.OrchestratorProfile with
  | none => none
  | some o =>
    if o.IsKubernetes then
      if p.HostedMasterProfile.isSome then some DefaultHostedProfileMasterName
      else some DefaultOrchestratorName
    else some ""

/-- AreAgentProfilesCustomVNET returns true when every agent pool is
configured with a custom VNET; a nil agent-pool slice (modelled `[]`) gives
false. -/
def Properties.AreAgentProfilesCustomVNET (p : Properties) : Bool :=
  match p.AgentPoolProfiles with
  | [] => false
  | pools => pools.all (fun a => a.IsCustomVNET)

/-! The GetClusterID pipeline: FNV-64a over the selected identifying string,
Go math/rand seeded from the hash, the first random Uint32 zero-padded to
eight digits. -/

/-- FNV-64a over a byte list: xor the byte, multiply by the 64-bit FNV prime,
all modulo 2^64 (hash/fnv sum64a). -/
def fnv64aBytes : List Nat → Nat → Nat
  | [], h => h
  | b :: bs, h => fnv64aBytes bs ((h ^^^ b) * 1099511628211 % 2 ^ 64)

/-- FNV-64a of a string's UTF-8 bytes, from the 64-bit offset basis. -/
def fnv64a (s : String) : Nat :=
  fnv64aBytes (s.toUTF8.toList.map (fun b => b.toNat)) 14695981039346656037

/-- Upper bound of Go int32 (math/rand int32max). -/
def int32max : Int := 2147483647

/-- Go math/rand seedrand: x = 48271*x mod 2^31-1 by Schrage's method. -/
def seedrand (x : Int) : Int :=
  let hi := Int.tdiv x 44488
  let lo := Int.tmod x 44488
  let y := 48271 * lo - 3399 * hi
  if y < 0 then y + int32max else y

/-- Iterated seedrand. -/
def seedrandIter : Nat → Int → Int
  | 0, x => x
  | k + 1, x => seedrandIter k (seedrand x)

/-- Vector entries of Go math/rand rngSource.Seed: three seedrand draws make
one 64-bit lagged-Fibonacci seed word. The library's fixed `rngCooked`
additive table (a constant of math/rand, not repository code) is not
reproduced here; it only perturbs the concrete digits of the stream, which no
claim depends on. -/
def rngVecAux : Nat → Int → List Nat
  | 0, _ => []
  | k + 1, x =>
    let x1 := seedrand x
    let x2 := seedrand x1
    let x3 := seedrand x2
    ((x1.toNat <<< 40 ^^^ x2.toNat <<< 20 ^^^ x3.toNat) % 2 ^ 64) :: rngVecAux k x3

/-- Go math/rand rngSource.Seed seed normalization: reduce the int64 seed
modulo 2^31-1 (truncated mod, then shifted to be nonnegative), substituting
89482311 for zero. -/
def randSeedInit (seed : Nat) : Int :=
  let s1 : Int := if seed < 2 ^ 63 then (seed : Int) else (seed : Int) - 2 ^ 64
  let s2 := Int.tmod s1 int32max
  let s3 := if s2 < 0 then s2 + int32max else s2
  if s3 = 0 then 89482311 else s3

/-- First Uint32 of a Go math/rand Rand built on rngSource with the given
seed: after Seed (20 warmup draws, 607 vector words), tap = 0 and
feed = 607 - 273, so the first Uint64 adds vec[333] and vec[606]; Uint32 is
bits 31..62 of Int63 of that word. -/
def randFirstUint32 (seed : Nat) : Nat :=
  let x0 := seedrandIter 20 (randSeedInit seed)
  let vec := rngVecAux 607 x0
  let u := (vec.getD 333 0 + vec.getD 606 0) % 2 ^ 64
  (u &&& (2 ^ 63 - 1)) >>> 31

/-- Go fmt.Sprintf("%08d", u): decimal digits left-padded with zeros to at
least eight characters. -/
def sprintf08d (u : Nat) : List Char :=
  List.replicate (8 - (GoNet.natDigits u).length) '0' ++ GoNet.natDigits u

/-- The identifying string hashed for the cluster ID: master DNS prefix, else
hosted-master DNS prefix, else first agent-pool name, else nothing (the FNV
state is then the bare offset basis, exactly as when Go writes no bytes). -/
def Properties.clusterIDInput (p : Properties) : String :=
  match p.MasterProfile with
  | some m => m.DNSPrefix
  | none =>
    match p.HostedMasterProfile with
    | some h => h.DNSPrefix
    | none =>
      match p.AgentPoolProfiles with
      | a :: _ => a.Name
      | [] => ""

/-- The value GetClusterID computes on first access: first 8 bytes of the
zero-padded first random Uint32 seeded from the FNV-64a hash. -/
def computeClusterID (p : Properties) : String :=
  String.mk ((sprintf08d (randFirstUint32 (fnv64a p.clusterIDInput))).take 8)

/-- The cluster-ID pipeline applied to one identifying string: FNV-64a hash,
pseudorandom generator seeded from the hash, first 8 characters of the
zero-padded random Uint32. -/
def clusterIDOfString (s : String) : String :=
  String.mk ((sprintf08d (randFirstUint32 (fnv64a s))).take 8)

/-- GetClusterID creates a unique 8 string cluster ID, memoized in the
`ClusterID` field: the (value returned, updated receiver) pair. The Go body
allocates a fresh function-local mutex around the write; being per-call it
never contends, so it is invisible to this sequential semantics (see the
interleaving model below for the concurrent behavior). -/
def Properties.GetClusterID (p : Properties) : String × Properties :=
  if p.ClusterID = "" then
    let v := computeClusterID p
    (v, { p with ClusterID := v })
  else (p.ClusterID, p)

/-- The value Go's `p.GetClusterID()` returns, used by the derived-name
getters (their results do not depend on the memoization write). -/
def Properties.GetClusterIDValue (p : Properties) : String :=
  (p.GetClusterID).1

/-- GetResourcePrefix returns the prefix to use for naming cluster resources;
`none` models the nil `OrchestratorProfile` panic inside K8sOrchestratorName. -/
def Properties.GetResourcePrefix (p : Properties) : Option String :=
  match p.K8sOrchestratorName with
  | none => none
  | some k =>
    if p.IsHostedMasterProfile then
      some (k ++ "-agentpool-" ++ p.GetClusterIDValue ++ "-")
    else some (k ++ "-master-" ++ p.GetClusterIDValue ++ "-")

/-- GetMasterVMPrefix returns the prefix of master VMs. -/
def Properties.GetMasterVMPrefix (p : Properties) : Option String :=
  match p.K8sOrchestratorName with
  | none => none
  | some k => some (k ++ "-master-" ++ p.GetClusterIDValue ++ "-")

/-- GetRouteTableName returns the route table name of the cluster. -/
def Properties.GetRouteTableName (p : Properties) : Option String :=
  (p.GetResourcePrefix).map (fun s => s ++ "routetable")

/-- GetNSGName returns the name of the network security group of the cluster. -/
def Properties.GetNSGName (p : Properties) : Option String :=
  (p.GetResourcePrefix).map (fun s => s ++ "nsg")

/-- GetVNetResourceGroupName returns the virtual network resource group name:
segment 4 of the subnet resource ID on custom-VNET clusters, the `var` zero
value "" otherwise. `none` models the Go panics (empty agent-pool slice or nil
master profile dereference, index out of range). -/
def Properties.GetVNetResourceGroupName (p : Properties) : Option String :=
  if p.IsHostedMasterProfile then
    if p.AreAgentProfilesCustomVNET then
      match p.AgentPoolProfiles with
      | [] => none
      | a :: _ =>
        (GoStd.split a.VnetSubnetID '/').get? DefaultVnetResourceGroupSegmentIndex
    else some ""
  else
    match p.MasterProfile with
    | none => none
    | some m =>
      if m.IsCustomVNET then
        (GoStd.split m.VnetSubnetID '/').get? DefaultVnetResourceGroupSegmentIndex
      else some ""

/-- GetVirtualNetworkName returns the virtual network name: segment 8 of the
subnet resource ID on custom-VNET clusters, a generated name otherwise. -/
def Properties.GetVirtualNetworkName (p : Properties) : Option String :=
  if p.IsHostedMasterProfile then
    if p.AreAgentProfilesCustomVNET then
      match p.AgentPoolProfiles with
      | [] => none
      | a :: _ =>
        (GoStd.split a.VnetSubnetID '/').get? DefaultVnetNameResourceSegmentIndex
    else
      (p.K8sOrchestratorName).map (fun k => k ++ "-vnet-" ++ p.GetClusterIDValue)
  else
    match p.MasterProfile with
    | none => none
    | some m =>
      if m.IsCustomVNET then
        (GoStd.split m.VnetSubnetID '/').get? DefaultVnetNameResourceSegmentIndex
      else
        (p.K8sOrchestratorName).map (fun k => k ++ "-vnet-" ++ p.GetClusterIDValue)

/-- GetSubnetName returns the subnet name of the cluster: segment 10 of the
subnet resource ID on custom-VNET clusters, a generated name otherwise. -/
def Properties.GetSubnetName (p : Properties) : Option String :=
  if p.IsHostedMasterProfile then
    if p.AreAgentProfilesCustomVNET then
      match p.AgentPoolProfiles with
      | [] => none
      | a :: _ =>
        (GoStd.split a.VnetSubnetID '/').get? DefaultSubnetNameResourceSegmentIndex
    else (p.K8sOrchestratorName).map (fun k => k ++ "-subnet")
  else
    match p.MasterProfile with
    | none => none
    | some m =>
      if m.IsCustomVNET then
        (GoStd.split m.VnetSubnetID '/').get? DefaultSubnetNameResourceSegmentIndex
      else (p.K8sOrchestratorName).map (fun k => k ++ "-subnet")

/-- Indexed overwrite of the bytes with position in [lo, hi) by `v`: the fill
loop of GetFirstConsecutiveStaticIPAddress. -/
def fillRangeAux (v : Nat) : List Nat → Nat → Nat → Nat → List Nat
  | [], _, _, _ => []
  | b :: bs, i, lo, hi =>
    (if lo ≤ i ∧ i < hi then v else b) :: fillRangeAux v bs (i + 1) lo hi

/-- Overwrite of the bytes with index in [lo, hi) by `v`. -/
def fillRange (l : List Nat) (lo hi v : Nat) : List Nat :=
  fillRangeAux v l 0 lo hi

/-- GetFirstConsecutiveStaticIPAddress returns the first static IP address of
the given subnet; the hardcoded default on a malformed CIDR. For VMSS masters
only the last octet is set (to offset 4); otherwise the host bits of the first
host octet are set, full intermediate host octets become 255 and the last
octet gets offset 5. `none` models the index-out-of-range panic when the
prefix has no host bits (firstOctet = address length); the last octet's index
is always in range, so `List.set` there coincides with Go. -/
def MasterProfile.GetFirstConsecutiveStaticIPAddress (m : MasterProfile)
    (subnetStr : String) : Option String :=
  match GoNet.parseCIDR subnetStr with
  | none => some DefaultFirstConsecutiveKubernetesStaticIP
  | some (ip, mask) =>
    let ones := (GoNet.maskSize mask).1
    let bits := (GoNet.maskSize mask).2
    let firstOctet := ones / 8
    let lastOctet := bits / 8 - 1
    if m.IsVirtualMachineScaleSets then
      some (GoNet.ipString
        (ip.set lastOctet DefaultKubernetesFirstConsecutiveStaticIPOffsetVMSS))
    else
      if firstOctet < ip.length then
        let ip1 := ip.set firstOctet
          (ip.getD firstOctet 0 ||| (2 ^ (8 - ones % 8) - 1))
        let ip2 := fillRange ip1 (firstOctet + 1) lastOctet 255
        some (GoNet.ipString
          (ip2.set lastOctet DefaultKubernetesFirstConsecutiveStaticIPOffset))
      else none

end AksEngine

namespace AksEngine

/-! An interleaving model of concurrent calls to `Properties.GetClusterID` on
one shared receiver. Each thread runs the Go body as four atomic steps:
check `p.ClusterID == ""`; compute the value (the hash/rand pipeline, counted
in `computes`); write `p.ClusterID`; read `p.ClusterID` for the return. The
function-local `var mutex = &sync.Mutex{}` is allocated fresh on every call,
so its Lock/Unlock around the write can never contend with another caller and
adds no synchronization between threads: the model deliberately has none.
`v` is the deterministic computed value `computeClusterID p`, shared by all
threads because the hashed profile fields are immutable. -/

/-- One caller of GetClusterID: program counter 0 = at the emptiness check,
1 = about to compute, 2 = about to write, 3 = about to read the return value,
4 = returned with `result`. -/
structure GciThread where
  pc : Nat
  result : String
deriving DecidableEq, Repr

/-- The shared state: the `ClusterID` field, the callers, and how many times
the value has been computed. -/
structure GciSystem where
  clusterID : String
  threads : List GciThread
  computes : Nat
deriving DecidableEq, Repr

/-- N concurrent callers on an uninitialized receiver. -/
def gciInit (n : Nat) : GciSystem :=
  { clusterID := "", threads := List.replicate n { pc := 0, result := "" }, computes := 0 }

/-- One atomic step of thread `i` (no-op for a finished or absent thread). -/
def gciStep (v : String) (sys : GciSystem) (i : Nat) : GciSystem :=
  match sys.threads.get? i with
  | none => sys
  | some t =>
    if t.pc = 0 then
      if sys.clusterID = "" then
        { sys with threads := sys.threads.set i { t with pc := 1 } }
      else
        { sys with threads := sys.threads.set i { t with pc := 3 } }
    else if t.pc = 1 then
      { sys with threads := (sys.threads.set i { t with pc := 2 }), computes := sys.computes + 1 }
    else if t.pc = 2 then
      { sys with clusterID := v, threads := sys.threads.set i { t with pc := 3 } }
    else if t.pc = 3 then
      { sys with threads := sys.threads.set i { t with pc := 4, result := sys.clusterID } }
    else sys

/-- Run a schedule (a list of thread indices, one atomic step each). -/
def gciRun (v : String) (sched : List Nat) (sys : GciSystem) : GciSystem :=
  sched.foldl (gciStep v) sys

end AksEngine

namespace AksEngine

/-! A spec-modelled view of the version-converter layer (the converter modules
are not part of the staged sources; only their tests are). -/

/-- Modelled from the spec: the shared universe of cluster-specification
fields over which the per-version field subsets are taken. The converter
modules (`ConvertContainerServiceToV20160330` .. `ConvertContainerServiceToVLabs`
and their inverses) are the missing code. -/
inductive CsField where
  | dnsPrefix
  | vmSize
  | osDiskSizeGB
  | orchestratorType
  | orchestratorVersion
  | adminUsername
  | networkPlugin
  | networkPolicy
  | agentPoolCount
  | distro
deriving DecidableEq, Repr

/-- Enumeration of the field universe. -/
def CsField.all : List CsField :=
  [.dnsPrefix, .vmSize, .osDiskSizeGB, .orchestratorType, .orchestratorVersion,
   .adminUsername, .networkPlugin, .networkPolicy, .agentPoolCount, .distro]

/-- Modelled from the spec: a valid canonical ContainerService, viewed as its
assignment of values to the shared field universe. -/
def Canonical : Type := CsField → String

/-- Modelled from the spec: one external schema version — which canonical
fields it can represent and the (renamed) external wire name of each. -/
structure SchemaVersion where
  has : CsField → Bool
  extName : CsField → String

/-- Modelled from the spec: ToVersioned — field-by-field copy with renames;
fields absent in the target version are dropped (older-schema output is
intentionally lossy). The external document maps wire names to values. -/
def ToVersioned (V : SchemaVersion) (c : Canonical) : String → String :=
  fun wireName =>
    match CsField.all.find? (fun f => V.has f && (V.extName f == wireName)) with
    | some f => c f
    | none => ""

/-- Modelled from the spec: ToCanonical — field-by-field copy with the inverse
renames; any field absent in the external version is left as the zero value
on canonical. -/
def ToCanonical (V : SchemaVersion) (x : String → String) : Canonical :=
  fun f => if V.has f then x (V.extName f) else ""

/-- Wire names shared by every version (struct-tag style casing). -/
def baseWireName : CsField → String
  | .dnsPrefix => "dnsPrefix"
  | .vmSize => "vmSize"
  | .osDiskSizeGB => "osDiskSizeGB"
  | .orchestratorType => "orchestratorType"
  | .orchestratorVersion => "orchestratorVersion"
  | .adminUsername => "adminUsername"
  | .networkPlugin => "networkPlugin"
  | .networkPolicy => "networkPolicy"
  | .agentPoolCount => "count"
  | .distro => "distro"

/-- The vlabs schema: every canonical field is representable. -/
def vlabsVersion : SchemaVersion :=
  { has := fun _ => true, extName := baseWireName }

/-- The v20170701 schema: no network policy field. -/
def v20170701Version : SchemaVersion :=
  { has := fun f => !(f matches .networkPolicy), extName := baseWireName }

/-- The v20170131 schema: no network plugin/policy and no distro. -/
def v20170131Version : SchemaVersion :=
  { has := fun f => !(f matches .networkPolicy) && !(f matches .networkPlugin)
      && !(f matches .distro),
    extName := baseWireName }

/-- The v20160930 schema: as v20170131, without the orchestrator version. -/
def v20160930Version : SchemaVersion :=
  { has := fun f => !(f matches .networkPolicy) && !(f matches .networkPlugin)
      && !(f matches .distro) && !(f matches .orchestratorVersion),
    extName := baseWireName }

/-- The v20160330 schema: the smallest field set, with the orchestrator type
under its historical wire name. -/
def v20160330Version : SchemaVersion :=
  { has := fun f => !(f matches .networkPolicy) && !(f matches .networkPlugin)
      && !(f matches .distro) && !(f matches .orchestratorVersion)
      && !(f matches .adminUsername),
    extName := fun f =>
      match f with
      | .orchestratorType => "orchestrator"
      | g => baseWireName g }

/-- The supported external schema versions. -/
def supportedVersions : List SchemaVersion :=
  [vlabsVersion, v20170701Version, v20170131Version, v20160930Version,
   v20160330Version]

end AksEngine

namespace AksEngine

/-! Spec-modelled vlabs conversion of the custom-cloud environment spec (the
converter function ConvertAzureEnvironmentSpecConfigToVLabs is not in the
staged sources; its test TestConvertAzureEnvironmentSpecConfigToVLabs is). -/

/-- DockerSpecConfig is the docker engine download repo configuration. -/
structure DockerSpecConfig where
  DockerEngineRepo : String
  DockerComposeDownloadURL : String
deriving DecidableEq, Repr

/-- KubernetesSpecConfig is the kubernetes container images download config. -/
structure KubernetesSpecConfig where
  KubernetesImageBase : String
  TillerImageBase : String
  ACIConnectorImageBase : String
  NVIDIAImageBase : String
  AzureCNIImageBase : String
  CalicoImageBase : String
  EtcdDownloadURLBase : String
  KubeBinariesSASURLBase : String
  WindowsTelemetryGUID : String
  CNIPluginsDownloadURL : String
  VnetCNILinuxPluginsDownloadURL : String
  VnetCNIWindowsPluginsDownloadURL : String
  ContainerdDownloadURLBase : String
deriving DecidableEq, Repr

/-- DCOSSpecConfig is the DCOS bootstrap download URL configuration. -/
structure DCOSSpecConfig where
  DCOS188BootstrapDownloadURL : String
  DCOS190BootstrapDownloadURL : String
  DCOS198BootstrapDownloadURL : String
  DCOS110BootstrapDownloadURL : String
  DCOS111BootstrapDownloadURL : String
  DCOSWindowsBootstrapDownloadURL : String
  DcosRepositoryURL : String
  DcosClusterPackageListID : String
  DcosProviderPackageID : String
deriving DecidableEq, Repr

/-- AzureEndpointConfig describes an Azure endpoint. -/
structure AzureEndpointConfig where
  ResourceManagerVMDNSSuffix : String
deriving DecidableEq, Repr

/-- AzureOSImageConfig describes an Azure OS image. -/
structure AzureOSImageConfig where
  ImageOffer : String
  ImageSku : String
  ImagePublisher : String
  ImageVersion : String
deriving DecidableEq, Repr

/-- AzureEnvironmentSpecConfig is the overall configuration of a cloud
environment; the OS image table keyed by distro is an association list. -/
structure AzureEnvironmentSpecConfig where
  CloudName : String
  DockerSpecConfig : DockerSpecConfig
  KubernetesSpecConfig : KubernetesSpecConfig
  DCOSSpecConfig : DCOSSpecConfig
  EndpointConfig : AzureEndpointConfig
  OSImageConfig : List (String × AzureOSImageConfig)
deriving DecidableEq, Repr

/-- Modelled from the spec: the vlabs mirror of AzureOSImageConfig produced by
the missing converter — a field-by-field copy. -/
def convertAzureOSImageConfigToVLabs (c : AzureOSImageConfig) : AzureOSImageConfig :=
  { ImageOffer := c.ImageOffer, ImageSku := c.ImageSku,
    ImagePublisher := c.ImagePublisher, ImageVersion := c.ImageVersion }

/-- Modelled from the spec: ConvertAzureEnvironmentSpecConfigToVLabs (missing
converter module) — a field-by-field copy of every sub-config, with the OS
image map converted by iterating the source entries and re-keying each distro
into the vlabs map. -/
def convertAzureEnvironmentSpecConfigToVLabs (c : AzureEnvironmentSpecConfig) :
    AzureEnvironmentSpecConfig :=
  { CloudName := c.CloudName,
    DockerSpecConfig :=
      { DockerEngineRepo := c.DockerSpecConfig.DockerEngineRepo,
        DockerComposeDownloadURL := c.DockerSpecConfig.DockerComposeDownloadURL },
    KubernetesSpecConfig :=
      { KubernetesImageBase := c.KubernetesSpecConfig.KubernetesImageBase,
        TillerImageBase := c.KubernetesSpecConfig.TillerImageBase,
        ACIConnectorImageBase := c.KubernetesSpecConfig.ACIConnectorImageBase,
        NVIDIAImageBase := c.KubernetesSpecConfig.NVIDIAImageBase,
        AzureCNIImageBase := c.KubernetesSpecConfig.AzureCNIImageBase,
        CalicoImageBase := c.KubernetesSpecConfig.CalicoImageBase,
        EtcdDownloadURLBase := c.KubernetesSpecConfig.EtcdDownloadURLBase,
        KubeBinariesSASURLBase := c.KubernetesSpecConfig.KubeBinariesSASURLBase,
        WindowsTelemetryGUID := c.KubernetesSpecConfig.WindowsTelemetryGUID,
        CNIPluginsDownloadURL := c.KubernetesSpecConfig.CNIPluginsDownloadURL,
        VnetCNILinuxPluginsDownloadURL :=
          c.KubernetesSpecConfig.VnetCNILinuxPluginsDownloadURL,
        VnetCNIWindowsPluginsDownloadURL :=
          c.KubernetesSpecConfig.VnetCNIWindowsPluginsDownloadURL,
        ContainerdDownloadURLBase := c.KubernetesSpecConfig.ContainerdDownloadURLBase },
    DCOSSpecConfig :=
      { DCOS188BootstrapDownloadURL := c.DCOSSpecConfig.DCOS188BootstrapDownloadURL,
        DCOS190BootstrapDownloadURL := c.DCOSSpecConfig.DCOS190BootstrapDownloadURL,
        DCOS198BootstrapDownloadURL := c.DCOSSpecConfig.DCOS198BootstrapDownloadURL,
        DCOS110BootstrapDownloadURL := c.DCOSSpecConfig.DCOS110BootstrapDownloadURL,
        DCOS111BootstrapDownloadURL := c.DCOSSpecConfig.DCOS111BootstrapDownloadURL,
        DCOSWindowsBootstrapDownloadURL :=
          c.DCOSSpecConfig.DCOSWindowsBootstrapDownloadURL,
        DcosRepositoryURL := c.DCOSSpecConfig.DcosRepositoryURL,
        DcosClusterPackageListID := c.DCOSSpecConfig.DcosClusterPackageListID,
        DcosProviderPackageID := c.DCOSSpecConfig.DcosProviderPackageID },
    EndpointConfig :=
      { ResourceManagerVMDNSSuffix := c.EndpointConfig.ResourceManagerVMDNSSuffix },
    OSImageConfig :=
      c.OSImageConfig.map (fun e => (e.1, convertAzureOSImageConfigToVLabs e.2)) }

end AksEngine

namespace AksEngine

/-! Concrete instances used by the witnesses below. -/

/-- A self-hosted master on the default availability-set topology. -/
def nonVmssMaster : MasterProfile :=
  { Count := 1, DNSPrefix := "blueorange", VnetSubnetID := "",
    AvailabilityProfile := AvailabilitySet }

/-- A self-hosted master on the VMSS topology. -/
def vmssMaster : MasterProfile :=
  { nonVmssMaster with AvailabilityProfile := VirtualMachineScaleSets }

/-- A well-formed Azure subnet resource ID. -/
def sampleSubnetID : String :=
  "/subscriptions/SUB/resourceGroups/RG/providers/Microsoft.Network/virtualNetworks/VNET/subnets/SNET"

/-- A master profile on a custom VNET. -/
def customVnetMaster : MasterProfile :=
  { nonVmssMaster with VnetSubnetID := sampleSubnetID }

/-- An agent pool on a custom VNET. -/
def customVnetPool : AgentPoolProfile :=
  { Name := "agentpool1", Count := 2, OSType := Linux, Distro := "aks-ubuntu-16.04",
    VnetSubnetID := sampleSubnetID, AvailabilityProfile := VirtualMachineScaleSets }

/-- A Kubernetes orchestrator profile. -/
def k8sOrchestrator : OrchestratorProfile :=
  { OrchestratorType := Kubernetes, OrchestratorVersion := "1.15.0" }

/-- A Swarm orchestrator profile (non-Kubernetes). -/
def swarmOrchestrator : OrchestratorProfile :=
  { OrchestratorType := "Swarm", OrchestratorVersion := "1.1.0" }

/-- A self-hosted Kubernetes cluster on a custom VNET. -/
def selfHostedCustomVnetProps : Properties :=
  { ClusterID := "", OrchestratorProfile := some k8sOrchestrator,
    MasterProfile := some customVnetMaster, HostedMasterProfile := none,
    AgentPoolProfiles := [] }

/-- A hosted-master Kubernetes cluster whose agent pools are on a custom VNET. -/
def hostedCustomVnetProps : Properties :=
  { ClusterID := "", OrchestratorProfile := some k8sOrchestrator,
    MasterProfile := none,
    HostedMasterProfile := some { DNSPrefix := "agghm", FQDN := "agghm.westus2.com" },
    AgentPoolProfiles := [customVnetPool] }

/-- An uninitialized cluster whose only identifying string is the master DNS
prefix. -/
def masterOnlyProps : Properties :=
  { ClusterID := "", OrchestratorProfile := some k8sOrchestrator,
    MasterProfile := some nonVmssMaster, HostedMasterProfile := none,
    AgentPoolProfiles := [] }

/-- A non-Kubernetes (Swarm) self-hosted cluster without a custom VNET. -/
def swarmProps : Properties :=
  { ClusterID := "", OrchestratorProfile := some swarmOrchestrator,
    MasterProfile := some nonVmssMaster, HostedMasterProfile := none,
    AgentPoolProfiles := [] }

/-- An addon present in the list with its tri-state `Enabled` unset. -/
def unsetAddon : KubernetesAddon :=
  { Name := "cluster-autoscaler", Enabled := none, Data := "" }

/-- A config carrying only the unset addon. -/
def unsetAddonConfig : KubernetesConfig := { Addons := [unsetAddon] }

/-- A canonical assignment used by the round-trip witness. -/
def witnessCanonical : Canonical := fun f => "v-" ++ baseWireName f

end AksEngine

namespace AksEngine

/-! Helper lemmas shared by the claim theorems. -/

/-- A string differs from the empty string iff its length is positive. -/
theorem string_ne_empty_iff_length_pos (s : String) : s ≠ "" ↔ 0 < s.length := by
  cases s with
  | mk data =>
    cases data with
    | nil => simp [String.length]
    | cons c cs =>
      simp only [String.length, List.length_cons]
      constructor
      · intro _; omega
      · intro _ h
        exact absurd (congrArg String.data h) (by simp)

/-- Overwriting index i then reading index i gives the written value. -/
theorem getD_set_self (l : List Nat) (i a d : Nat) (h : i < l.length) :
    (l.set i a).getD i d = a := by
  induction l generalizing i with
  | nil => simp at h
  | cons x xs ih =>
    cases i with
    | zero => simp
    | succ n =>
      simp only [List.set, List.getD_cons_succ]
      exact ih n (by simpa using h)

/-- Overwriting index i leaves reads at other indices unchanged. -/
theorem getD_set_ne (l : List Nat) (i j a d : Nat) (h : i ≠ j) :
    (l.set i a).getD j d = l.getD j d := by
  induction l generalizing i j with
  | nil => simp
  | cons x xs ih =>
    cases i with
    | zero =>
      cases j with
      | zero => exact absurd rfl h
      | succ m => simp
    | succ n =>
      cases j with
      | zero => simp
      | succ m =>
        simp only [List.set, List.getD_cons_succ]
        exact ih n m (by omega)

/-- The fill loop preserves the length. -/
theorem fillRangeAux_length (v : Nat) (l : List Nat) (i lo hi : Nat) :
    (fillRangeAux v l i lo hi).length = l.length := by
  induction l generalizing i with
  | nil => rfl
  | cons b bs ih => simp [fillRangeAux, ih]

/-- Reads from the fill loop: positions whose absolute index lands in
[lo, hi) hold v, the rest are unchanged. -/
theorem fillRangeAux_getD (v : Nat) (l : List Nat) (i lo hi j d : Nat) :
    (fillRangeAux v l i lo hi).getD j d =
      if lo ≤ i + j ∧ i + j < hi ∧ j < l.length then v else l.getD j d := by
  induction l generalizing i j with
  | nil => simp [fillRangeAux]
  | cons b bs ih =>
    cases j with
    | zero =>
      simp only [fillRangeAux, List.getD_cons_zero, List.length_cons, Nat.add_zero]
      split
      · rename_i hc
        rw [if_pos ⟨hc.1, hc.2, by omega⟩]
      · rename_i hc
        rw [if_neg (by intro h2; exact hc ⟨h2.1, h2.2.1⟩)]
    | succ m =>
      simp only [fillRangeAux, List.getD_cons_succ, List.length_cons]
      rw [ih]
      have harith : (lo ≤ i + 1 + m ∧ i + 1 + m < hi ∧ m < bs.length) ↔
          (lo ≤ i + (m + 1) ∧ i + (m + 1) < hi ∧ m + 1 < bs.length + 1) := by omega
      simp only [harith]

/-- Reads from fillRange. -/
theorem fillRange_getD (l : List Nat) (lo hi v j d : Nat) :
    (fillRange l lo hi v).getD j d =
      if lo ≤ j ∧ j < hi ∧ j < l.length then v else l.getD j d := by
  have := fillRangeAux_getD v l 0 lo hi j d
  simpa [fillRange] using this

/-- fillRange preserves the length. -/
theorem fillRange_length (l : List Nat) (lo hi v : Nat) :
    (fillRange l lo hi v).length = l.length :=
  fillRangeAux_length v l 0 lo hi

/-- Every character printed by the decimal printer loop is a digit. -/
theorem natDigitsAux_isDigit (fuel : Nat) :
    ∀ n : Nat, ∀ c ∈ GoNet.natDigitsAux fuel n, c.isDigit = true := by
  induction fuel with
  | zero =>
    intro n c hc
    simp [GoNet.natDigitsAux] at hc
  | succ f ih =>
    intro n c hc
    rw [GoNet.natDigitsAux] at hc
    split at hc
    · rename_i h
      simp only [List.mem_singleton] at hc
      subst hc
      interval_cases n <;> decide
    · rename_i h
      rw [List.mem_append] at hc
      rcases hc with hc | hc
      · exact ih (n / 10) c hc
      · simp only [List.mem_singleton] at hc
        subst hc
        have hm : n % 10 < 10 := Nat.mod_lt _ (by omega)
        generalize n % 10 = m at hm ⊢
        interval_cases m <;> decide

/-- Every character printed by the decimal printer is a digit. -/
theorem natDigits_isDigit (n : Nat) : ∀ c ∈ GoNet.natDigits n, c.isDigit = true :=
  natDigitsAux_isDigit (n + 1) n

/-- The decimal printer never prints the empty list. -/
theorem natDigits_ne_nil (n : Nat) : GoNet.natDigits n ≠ [] := by
  rw [GoNet.natDigits, GoNet.natDigitsAux]
  split
  · simp
  · simp

/-- The zero-padded rendering is at least eight characters long. -/
theorem sprintf08d_length (u : Nat) : 8 ≤ (sprintf08d u).length := by
  simp only [sprintf08d, List.length_append, List.length_replicate]
  omega

/-- Every character of the zero-padded rendering is a digit. -/
theorem sprintf08d_isDigit (u : Nat) : ∀ c ∈ sprintf08d u, c.isDigit = true := by
  intro c hc
  simp only [sprintf08d, List.mem_append] at hc
  rcases hc with hc | hc
  · rw [List.eq_of_mem_replicate hc]; decide
  · exact natDigits_isDigit u c hc

/-- Looking up a key after mapping the values of an association list. -/
theorem lookup_map_value {β γ : Type} (g : β → γ) (k : String) :
    ∀ l : List (String × β),
      List.lookup k (l.map (fun e => (e.1, g e.2))) = (List.lookup k l).map g := by
  intro l
  induction l with
  | nil => rfl
  | cons e rest ih =>
    by_cases h : k = e.1
    · have hb : (k == e.1) = true := by simpa using h
      simp [List.lookup, hb]
    · have hb : (k == e.1) = false := by simpa using h
      simp [List.lookup, hb, ih]

/-- If no addon in the list carries the name, the scan returns the zero-value
addon. -/
theorem findAddonByName_not_found (n : String) (l : List KubernetesAddon)
    (h : ∀ a ∈ l, a.Name ≠ n) :
    findAddonByName n l = { Name := "", Enabled := none, Data := "" } := by
  induction l with
  | nil => rfl
  | cons a rest ih =>
    simp only [findAddonByName]
    rw [if_neg (by simpa using h a (by simp))]
    exact ih (fun b hb => h b (by simp [hb]))

end AksEngine

open AksEngine in
/-- C3: for every input string that is not a parseable CIDR,
MasterProfile.GetFirstConsecutiveStaticIPAddress never signals an error and
instead returns the hardcoded default address "10.240.255.5", regardless of
the master's availability profile. -/
theorem C3_malformed_cidr_fallback (m : MasterProfile) (s : String)
    (h : GoNet.parseCIDR s = none) :
    m.GetFirstConsecutiveStaticIPAddress s = some "10.240.255.5" := by
  simp [MasterProfile.GetFirstConsecutiveStaticIPAddress, h,
    DefaultFirstConsecutiveKubernetesStaticIP]

/-- C3 witness: the fallback at the concrete input "not-a-cidr", under both
availability profiles. -/
theorem C3_malformed_cidr_fallback_witness :
    AksEngine.nonVmssMaster.GetFirstConsecutiveStaticIPAddress "not-a-cidr" =
      some "10.240.255.5" ∧
    AksEngine.vmssMaster.GetFirstConsecutiveStaticIPAddress "not-a-cidr" =
      some "10.240.255.5" :=
  ⟨C3_malformed_cidr_fallback _ _ (by rfl), C3_malformed_cidr_fallback _ _ (by rfl)⟩

open AksEngine in
/-- C6: Properties.HasWindows is true iff at least one agent pool has OSType
Windows; in particular it is false for an empty agent-pool list (the function
is a pure boolean scan of the pools). -/
theorem C6_hasWindows_iff (p : Properties) :
    (p.HasWindows = true ↔ ∃ a ∈ p.AgentPoolProfiles, a.OSType = Windows) ∧
    (p.AgentPoolProfiles = [] → p.HasWindows = false) := by
  constructor
  · simp [Properties.HasWindows, List.any_eq_true, beq_iff_eq]
  · intro h
    simp [Properties.HasWindows, h]

/-- C6 witness: a cluster with no agent pools has no Windows nodes. -/
theorem C6_hasWindows_iff_witness : AksEngine.masterOnlyProps.HasWindows = false :=
  (C6_hasWindows_iff AksEngine.masterOnlyProps).2 rfl

open AksEngine in
/-- C9: an addon whose tri-state Enabled is nil is reported disabled by
IsEnabled, and IsAddonEnabled is false both for an addon with unset Enabled
and for a name absent from the addon list; the accessor substitutes no
computed per-addon default. -/
theorem C9_addon_enabled_unset (a : KubernetesAddon) (k : KubernetesConfig)
    (n : String) :
    (a.Enabled = none → a.IsEnabled = false) ∧
    ((k.GetAddonByName n).Enabled = none → k.IsAddonEnabled n = false) ∧
    ((∀ b ∈ k.Addons, b.Name ≠ n) → k.IsAddonEnabled n = false) := by
  refine ⟨?_, ?_, ?_⟩
  · intro h
    simp [KubernetesAddon.IsEnabled, h]
  · intro h
    simp [KubernetesConfig.IsAddonEnabled, KubernetesAddon.IsEnabled, h]
  · intro h
    simp [KubernetesConfig.IsAddonEnabled, KubernetesConfig.GetAddonByName,
      findAddonByName_not_found n k.Addons h, KubernetesAddon.IsEnabled]

/-- C9 witness: the concrete unset addon is disabled, both when queried
directly and when absent from the list. -/
theorem C9_addon_enabled_unset_witness :
    AksEngine.unsetAddon.IsEnabled = false ∧
    AksEngine.unsetAddonConfig.IsAddonEnabled "cluster-autoscaler" = false ∧
    AksEngine.unsetAddonConfig.IsAddonEnabled "absent-addon" = false :=
  ⟨(C9_addon_enabled_unset AksEngine.unsetAddon AksEngine.unsetAddonConfig "x").1 rfl,
   (C9_addon_enabled_unset AksEngine.unsetAddon AksEngine.unsetAddonConfig
      "cluster-autoscaler").2.1 (by rfl),
   (C9_addon_enabled_unset AksEngine.unsetAddon AksEngine.unsetAddonConfig
      "absent-addon").2.2 (by decide)⟩

open AksEngine in
/-- C10: for Properties with a Kubernetes orchestrator, K8sOrchestratorName is
"aks" under a hosted master and "k8s" otherwise; for every non-Kubernetes
orchestrator type it is the empty string, so the derived resource names
(master VM prefix, resource prefix, route table, NSG, and the generated vnet
and subnet names) carry no orchestrator code. -/
theorem C10_k8s_orchestrator_name (p : Properties) (o : OrchestratorProfile)
    (ho : p.OrchestratorProfile = some o) :
    (o.OrchestratorType = Kubernetes →
      p.K8sOrchestratorName =
        some (if p.HostedMasterProfile.isSome then "aks" else "k8s")) ∧
    (o.OrchestratorType ≠ Kubernetes →
      p.K8sOrchestratorName = some "" ∧
      p.GetMasterVMPrefix = some ("-master-" ++ p.GetClusterIDValue ++ "-") ∧
      p.GetResourcePrefix = some ((if p.IsHostedMasterProfile then "-agentpool-"
        else "-master-") ++ p.GetClusterIDValue ++ "-") ∧
      p.GetRouteTableName = some ((if p.IsHostedMasterProfile then "-agentpool-"
        else "-master-") ++ p.GetClusterIDValue ++ "-" ++ "routetable") ∧
      p.GetNSGName = some ((if p.IsHostedMasterProfile then "-agentpool-"
        else "-master-") ++ p.GetClusterIDValue ++ "-" ++ "nsg") ∧
      (∀ m : MasterProfile, p.HostedMasterProfile = none → p.MasterProfile = some m →
        m.VnetSubnetID = "" →
        p.GetVirtualNetworkName = some ("-vnet-" ++ p.GetClusterIDValue) ∧
        p.GetSubnetName = some "-subnet")) := by
  constructor
  · intro hk
    simp only [Properties.K8sOrchestratorName, ho, OrchestratorProfile.IsKubernetes, hk,
      DefaultHostedProfileMasterName, DefaultOrchestratorName, beq_self_eq_true, if_true]
    cases p.HostedMasterProfile.isSome <;> simp
  · intro hk
    have hname : p.K8sOrchestratorName = some "" := by
      simp [Properties.K8sOrchestratorName, ho, OrchestratorProfile.IsKubernetes, hk]
    have hpre : p.GetResourcePrefix = some ((if p.IsHostedMasterProfile then
        "-agentpool-" else "-master-") ++ p.GetClusterIDValue ++ "-") := by
      cases hh : p.IsHostedMasterProfile <;>
        simp [Properties.GetResourcePrefix, hname, hh]
    refine ⟨hname, ?_, hpre, ?_, ?_, ?_⟩
    · simp [Properties.GetMasterVMPrefix, hname]
    · simp [Properties.GetRouteTableName, hpre]
    · simp [Properties.GetNSGName, hpre]
    · intro m hhm hmp hvnet
      constructor
      · simp [Properties.GetVirtualNetworkName, Properties.IsHostedMasterProfile,
          hhm, hmp, MasterProfile.IsCustomVNET, hvnet, hname]
      · simp [Properties.GetSubnetName, Properties.IsHostedMasterProfile,
          hhm, hmp, MasterProfile.IsCustomVNET, hvnet, hname]

/-- C10 witness: a Swarm cluster gets the empty orchestrator code and derived
names without it. -/
theorem C10_k8s_orchestrator_name_witness :
    AksEngine.swarmProps.K8sOrchestratorName = some "" ∧
    AksEngine.swarmProps.GetSubnetName = some "-subnet" := by
  have h := (C10_k8s_orchestrator_name AksEngine.swarmProps
    AksEngine.swarmOrchestrator rfl).2 (by decide)
  exact ⟨h.1, (h.2.2.2.2.2 AksEngine.nonVmssMaster rfl rfl rfl).2⟩

open AksEngine in
/-- C7: on a custom VNET, the derived-name queries parse the VnetSubnetID
resource ID by fixed slash-separated segment index — resource group at index
4, virtual network name at index 8, subnet name at index 10 — taking the ID
from the master profile for self-hosted clusters and from the first agent
pool for hosted-master clusters. -/
theorem C7_subnet_segment_indices (p : Properties) :
    (∀ m : MasterProfile, p.HostedMasterProfile = none → p.MasterProfile = some m →
      m.VnetSubnetID ≠ "" →
      p.GetVNetResourceGroupName = (GoStd.split m.VnetSubnetID '/').get? 4 ∧
      p.GetVirtualNetworkName = (GoStd.split m.VnetSubnetID '/').get? 8 ∧
      p.GetSubnetName = (GoStd.split m.VnetSubnetID '/').get? 10) ∧
    (∀ (h : HostedMasterProfile) (a : AgentPoolProfile) (rest : List AgentPoolProfile),
      p.HostedMasterProfile = some h → p.AgentPoolProfiles = a :: rest →
      (∀ q ∈ a :: rest, q.VnetSubnetID ≠ "") →
      p.GetVNetResourceGroupName = (GoStd.split a.VnetSubnetID '/').get? 4 ∧
      p.GetVirtualNetworkName = (GoStd.split a.VnetSubnetID '/').get? 8 ∧
      p.GetSubnetName = (GoStd.split a.VnetSubnetID '/').get? 10) := by
  constructor
  · intro m hhm hmp hv
    have hcv : m.IsCustomVNET = true := by
      simp [MasterProfile.IsCustomVNET]
      exact (string_ne_empty_iff_length_pos _).mp hv
    refine ⟨?_, ?_, ?_⟩
    · simp [Properties.GetVNetResourceGroupName, Properties.IsHostedMasterProfile,
        hhm, hmp, hcv, DefaultVnetResourceGroupSegmentIndex]
    · simp [Properties.GetVirtualNetworkName, Properties.IsHostedMasterProfile,
        hhm, hmp, hcv, DefaultVnetNameResourceSegmentIndex]
    · simp [Properties.GetSubnetName, Properties.IsHostedMasterProfile,
        hhm, hmp, hcv, DefaultSubnetNameResourceSegmentIndex]
  · intro h a rest hhm hpools hv
    have hcv : p.AreAgentProfilesCustomVNET = true := by
      rw [Properties.AreAgentProfilesCustomVNET, hpools]
      simp only [List.all_eq_true]
      intro q hq
      simp [AgentPoolProfile.IsCustomVNET]
      exact (string_ne_empty_iff_length_pos _).mp (hv q hq)
    refine ⟨?_, ?_, ?_⟩
    · simp [Properties.GetVNetResourceGroupName, Properties.IsHostedMasterProfile,
        hhm, hpools, hcv, DefaultVnetResourceGroupSegmentIndex]
    · simp [Properties.GetVirtualNetworkName, Properties.IsHostedMasterProfile,
        hhm, hpools, hcv, DefaultVnetNameResourceSegmentIndex]
    · simp [Properties.GetSubnetName, Properties.IsHostedMasterProfile,
        hhm, hpools, hcv, DefaultSubnetNameResourceSegmentIndex]

/-- C7 witness: a well-formed Azure subnet resource ID yields RG, VNET and
SNET on both topologies. -/
theorem C7_subnet_segment_indices_witness :
    AksEngine.selfHostedCustomVnetProps.GetVNetResourceGroupName = some "RG" ∧
    AksEngine.selfHostedCustomVnetProps.GetVirtualNetworkName = some "VNET" ∧
    AksEngine.selfHostedCustomVnetProps.GetSubnetName = some "SNET" ∧
    AksEngine.hostedCustomVnetProps.GetVNetResourceGroupName = some "RG" := by
  have h1 := (C7_subnet_segment_indices AksEngine.selfHostedCustomVnetProps).1
    AksEngine.customVnetMaster rfl rfl (by decide)
  have h2 := (C7_subnet_segment_indices AksEngine.hostedCustomVnetProps).2
    { DNSPrefix := "agghm", FQDN := "agghm.westus2.com" }
    AksEngine.customVnetPool [] rfl rfl (by decide)
  exact ⟨h1.1.trans (by rfl), h1.2.1.trans (by rfl), h1.2.2.trans (by rfl),
    h2.1.trans (by rfl)⟩

open AksEngine in
/-- C1: for every supported external schema version V and every canonical
document c, converting to V and back and restricting to the fields
representable in V yields exactly the original canonical values of those
fields (round-trip fidelity within the shared field subset). -/
theorem C1_version_roundtrip :
    ∀ V ∈ AksEngine.supportedVersions, ∀ (c : Canonical) (f : CsField),
      V.has f = true → ToCanonical V (ToVersioned V c) f = c f := by
  intro V hV c f hf
  simp only [supportedVersions, List.mem_cons, List.not_mem_nil, or_false] at hV
  rcases hV with rfl | rfl | rfl | rfl | rfl <;> cases f <;>
    first
      | rfl
      | exact absurd hf (by decide)

/-- C1 witness: the round trip through vlabs restores the dnsPrefix value of
a concrete canonical assignment. -/
theorem C1_version_roundtrip_witness :
    AksEngine.ToCanonical AksEngine.vlabsVersion
        (AksEngine.ToVersioned AksEngine.vlabsVersion AksEngine.witnessCanonical)
        AksEngine.CsField.dnsPrefix =
      AksEngine.witnessCanonical AksEngine.CsField.dnsPrefix :=
  C1_version_roundtrip AksEngine.vlabsVersion (List.Mem.head _)
    AksEngine.witnessCanonical AksEngine.CsField.dnsPrefix rfl

open AksEngine in
/-- C8: converting a fully populated AzureEnvironmentSpecConfig to vlabs
copies every source field value unchanged — the cloud name, every Docker,
Kubernetes and DCOS sub-config field, and the endpoint config — and the
converted OS image map holds every key of the source map, with the image
values copied field-by-field. -/
theorem C8_custom_cloud_spec_to_vlabs (c : AzureEnvironmentSpecConfig) :
    (convertAzureEnvironmentSpecConfigToVLabs c).CloudName = c.CloudName ∧
    (convertAzureEnvironmentSpecConfigToVLabs c).DockerSpecConfig.DockerEngineRepo =
      c.DockerSpecConfig.DockerEngineRepo ∧
    (convertAzureEnvironmentSpecConfigToVLabs c).DockerSpecConfig.DockerComposeDownloadURL =
      c.DockerSpecConfig.DockerComposeDownloadURL ∧
    (convertAzureEnvironmentSpecConfigToVLabs c).KubernetesSpecConfig.KubernetesImageBase =
      c.KubernetesSpecConfig.KubernetesImageBase ∧
    (convertAzureEnvironmentSpecConfigToVLabs c).KubernetesSpecConfig.TillerImageBase =
      c.KubernetesSpecConfig.TillerImageBase ∧
    (convertAzureEnvironmentSpecConfigToVLabs c).KubernetesSpecConfig.ACIConnectorImageBase =
      c.KubernetesSpecConfig.ACIConnectorImageBase ∧
    (convertAzureEnvironmentSpecConfigToVLabs c).KubernetesSpecConfig.NVIDIAImageBase =
      c.KubernetesSpecConfig.NVIDIAImageBase ∧
    (convertAzureEnvironmentSpecConfigToVLabs c).KubernetesSpecConfig.AzureCNIImageBase =
      c.KubernetesSpecConfig.AzureCNIImageBase ∧
    (convertAzureEnvironmentSpecConfigToVLabs c).KubernetesSpecConfig.CalicoImageBase =
      c.KubernetesSpecConfig.CalicoImageBase ∧
    (convertAzureEnvironmentSpecConfigToVLabs c).KubernetesSpecConfig.EtcdDownloadURLBase =
      c.KubernetesSpecConfig.EtcdDownloadURLBase ∧
    (convertAzureEnvironmentSpecConfigToVLabs c).KubernetesSpecConfig.KubeBinariesSASURLBase =
      c.KubernetesSpecConfig.KubeBinariesSASURLBase ∧
    (convertAzureEnvironmentSpecConfigToVLabs c).KubernetesSpecConfig.WindowsTelemetryGUID =
      c.KubernetesSpecConfig.WindowsTelemetryGUID ∧
    (convertAzureEnvironmentSpecConfigToVLabs c).KubernetesSpecConfig.CNIPluginsDownloadURL =
      c.KubernetesSpecConfig.CNIPluginsDownloadURL ∧
    (convertAzureEnvironmentSpecConfigToVLabs c).KubernetesSpecConfig.VnetCNILinuxPluginsDownloadURL =
      c.KubernetesSpecConfig.VnetCNILinuxPluginsDownloadURL ∧
    (convertAzureEnvironmentSpecConfigToVLabs c).KubernetesSpecConfig.VnetCNIWindowsPluginsDownloadURL =
      c.KubernetesSpecConfig.VnetCNIWindowsPluginsDownloadURL ∧
    (convertAzureEnvironmentSpecConfigToVLabs c).KubernetesSpecConfig.ContainerdDownloadURLBase =
      c.KubernetesSpecConfig.ContainerdDownloadURLBase ∧
    (convertAzureEnvironmentSpecConfigToVLabs c).DCOSSpecConfig.DCOS188BootstrapDownloadURL =
      c.DCOSSpecConfig.DCOS188BootstrapDownloadURL ∧
    (convertAzureEnvironmentSpecConfigToVLabs c).DCOSSpecConfig.DCOS190BootstrapDownloadURL =
      c.DCOSSpecConfig.DCOS190BootstrapDownloadURL ∧
    (convertAzureEnvironmentSpecConfigToVLabs c).DCOSSpecConfig.DCOS198BootstrapDownloadURL =
      c.DCOSSpecConfig.DCOS198BootstrapDownloadURL ∧
    (convertAzureEnvironmentSpecConfigToVLabs c).DCOSSpecConfig.DCOS110BootstrapDownloadURL =
      c.DCOSSpecConfig.DCOS110BootstrapDownloadURL ∧
    (convertAzureEnvironmentSpecConfigToVLabs c).DCOSSpecConfig.DCOS111BootstrapDownloadURL =
      c.DCOSSpecConfig.DCOS111BootstrapDownloadURL ∧
    (convertAzureEnvironmentSpecConfigToVLabs c).DCOSSpecConfig.DCOSWindowsBootstrapDownloadURL =
      c.DCOSSpecConfig.DCOSWindowsBootstrapDownloadURL ∧
    (convertAzureEnvironmentSpecConfigToVLabs c).DCOSSpecConfig.DcosRepositoryURL =
      c.DCOSSpecConfig.DcosRepositoryURL ∧
    (convertAzureEnvironmentSpecConfigToVLabs c).DCOSSpecConfig.DcosClusterPackageListID =
      c.DCOSSpecConfig.DcosClusterPackageListID ∧
    (convertAzureEnvironmentSpecConfigToVLabs c).DCOSSpecConfig.DcosProviderPackageID =
      c.DCOSSpecConfig.DcosProviderPackageID ∧
    (convertAzureEnvironmentSpecConfigToVLabs c).EndpointConfig.ResourceManagerVMDNSSuffix =
      c.EndpointConfig.ResourceManagerVMDNSSuffix ∧
    (∀ k : String,
      List.lookup k (convertAzureEnvironmentSpecConfigToVLabs c).OSImageConfig =
        (List.lookup k c.OSImageConfig).map convertAzureOSImageConfigToVLabs) :=
  ⟨rfl, rfl, rfl, rfl, rfl, rfl, rfl, rfl, rfl, rfl, rfl, rfl, rfl, rfl, rfl, rfl,
   rfl, rfl, rfl, rfl, rfl, rfl, rfl, rfl, rfl, rfl,
   fun k => lookup_map_value convertAzureOSImageConfigToVLabs k c.OSImageConfig⟩

open AksEngine in
/-- C4: for an uninitialized Properties, GetClusterID returns an 8-character
all-digit string obtained by hashing the first available identifying string —
master DNS prefix, else hosted-master DNS prefix, else first agent-pool name,
in that priority order — with FNV-64a, seeding the pseudorandom generator
from the hash and taking the first 8 characters of the zero-padded random
Uint32; the value is memoized in the ClusterID field and every subsequent
call returns the same string with the receiver unchanged. -/
theorem C4_get_cluster_id (p : Properties) :
    (p.ClusterID = "" →
      ((p.GetClusterID).1.length = 8 ∧
        (∀ ch ∈ (p.GetClusterID).1.data, ch.isDigit = true)) ∧
      (∀ m : MasterProfile, p.MasterProfile = some m →
        (p.GetClusterID).1 = clusterIDOfString m.DNSPrefix) ∧
      (∀ h : HostedMasterProfile, p.MasterProfile = none →
        p.HostedMasterProfile = some h →
        (p.GetClusterID).1 = clusterIDOfString h.DNSPrefix) ∧
      (∀ (a : AgentPoolProfile) (rest : List AgentPoolProfile),
        p.MasterProfile = none → p.HostedMasterProfile = none →
        p.AgentPoolProfiles = a :: rest →
        (p.GetClusterID).1 = clusterIDOfString a.Name)) ∧
    ((p.GetClusterID).2.ClusterID = (p.GetClusterID).1) ∧
    ((p.GetClusterID).2.GetClusterID = ((p.GetClusterID).1, (p.GetClusterID).2)) := by
  have hlen : ∀ u : Nat, (String.mk ((sprintf08d u).take 8)).length = 8 := by
    intro u
    simp only [String.length, List.length_take]
    exact Nat.min_eq_left (sprintf08d_length u)
  have hne : computeClusterID p ≠ "" := by
    intro heq
    have hL : (computeClusterID p).length = 8 := hlen _
    rw [heq] at hL
    exact absurd hL (by decide)
  refine ⟨?_, ?_⟩
  · intro hempty
    have hv : (p.GetClusterID).1 = computeClusterID p := by
      simp [Properties.GetClusterID, hempty]
    refine ⟨⟨?_, ?_⟩, ?_, ?_, ?_⟩
    · rw [hv]; exact hlen _
    · rw [hv]
      intro ch hch
      exact sprintf08d_isDigit _ ch (List.mem_of_mem_take hch)
    · intro m hm
      rw [hv]
      simp [computeClusterID, clusterIDOfString, Properties.clusterIDInput, hm]
    · intro h hm hh
      rw [hv]
      simp [computeClusterID, clusterIDOfString, Properties.clusterIDInput, hm, hh]
    · intro a rest hm hh hpools
      rw [hv]
      simp [computeClusterID, clusterIDOfString, Properties.clusterIDInput, hm, hh, hpools]
  · by_cases hempty : p.ClusterID = ""
    · have h1 : (p.GetClusterID).1 = computeClusterID p := by
        simp [Properties.GetClusterID, hempty]
      have h2 : (p.GetClusterID).2 = { p with ClusterID := computeClusterID p } := by
        simp [Properties.GetClusterID, hempty]
      constructor
      · rw [h1, h2]
      · rw [h1, h2]
        simp [Properties.GetClusterID, hne]
    · constructor
      · simp [Properties.GetClusterID, hempty]
      · simp [Properties.GetClusterID, hempty]

/-- C4 witness: the concrete uninitialized cluster takes its ID from the
pipeline applied to the master DNS prefix "blueorange". -/
theorem C4_get_cluster_id_witness :
    (AksEngine.masterOnlyProps.GetClusterID).1 =
      AksEngine.clusterIDOfString "blueorange" :=
  ((C4_get_cluster_id AksEngine.masterOnlyProps).1 rfl).2.1 AksEngine.nonVmssMaster rfl

namespace AksEngine

/-- One step of the GetClusterID interleaving model preserves the invariant:
the shared field is empty or holds v, a thread about to read its return value
can only exist once the field holds v, and every returned result is v. -/
theorem gci_step_inv (v : String) (sys : GciSystem) (i : Nat)
    (hcid : sys.clusterID = "" ∨ sys.clusterID = v)
    (hth : ∀ t ∈ sys.threads,
      (t.pc = 3 → sys.clusterID = v) ∧ (t.pc = 4 → t.result = v)) :
    ((gciStep v sys i).clusterID = "" ∨ (gciStep v sys i).clusterID = v) ∧
    ∀ t ∈ (gciStep v sys i).threads,
      (t.pc = 3 → (gciStep v sys i).clusterID = v) ∧ (t.pc = 4 → t.result = v) := by
  cases hget : sys.threads.get? i with
  | none =>
    simp only [gciStep, hget]
    exact ⟨hcid, hth⟩
  | some t =>
    have htmem : t ∈ sys.threads := List.get?_mem hget
    simp only [gciStep, hget]
    split_ifs with h0 hc h1 h2 h3
    · -- pc 0, field empty: move to compute
      refine ⟨hcid, ?_⟩
      intro u hu
      rcases List.mem_or_eq_of_mem_set hu with hmem | heq
      · exact hth u hmem
      · subst heq
        exact ⟨fun hpc => by simp at hpc, fun hpc => by simp at hpc⟩
    · -- pc 0, field already set: skip to the return read
      have hcv : sys.clusterID = v := by
        rcases hcid with he | hv
        · exact absurd he hc
        · exact hv
      refine ⟨hcid, ?_⟩
      intro u hu
      rcases List.mem_or_eq_of_mem_set hu with hmem | heq
      · exact hth u hmem
      · subst heq
        exact ⟨fun _ => hcv, fun hpc => by simp at hpc⟩
    · -- pc 1: compute
      refine ⟨hcid, ?_⟩
      intro u hu
      rcases List.mem_or_eq_of_mem_set hu with hmem | heq
      · exact hth u hmem
      · subst heq
        exact ⟨fun hpc => by simp at hpc, fun hpc => by simp at hpc⟩
    · -- pc 2: write v
      refine ⟨Or.inr rfl, ?_⟩
      intro u hu
      rcases List.mem_or_eq_of_mem_set hu with hmem | heq
      · exact ⟨fun _ => rfl, (hth u hmem).2⟩
      · subst heq
        exact ⟨fun _ => rfl, fun hpc => by simp at hpc⟩
    · -- pc 3: read the field into the result
      have hcv : sys.clusterID = v := (hth t htmem).1 h3
      refine ⟨hcid, ?_⟩
      intro u hu
      rcases List.mem_or_eq_of_mem_set hu with hmem | heq
      · exact hth u hmem
      · subst heq
        exact ⟨fun hpc => by simp at hpc, fun _ => hcv⟩
    · exact ⟨hcid, hth⟩

/-- Running any schedule preserves the invariant. -/
theorem gci_run_inv (v : String) (sched : List Nat) (sys : GciSystem)
    (hcid : sys.clusterID = "" ∨ sys.clusterID = v)
    (hth : ∀ t ∈ sys.threads,
      (t.pc = 3 → sys.clusterID = v) ∧ (t.pc = 4 → t.result = v)) :
    ((gciRun v sched sys).clusterID = "" ∨ (gciRun v sched sys).clusterID = v) ∧
    ∀ t ∈ (gciRun v sched sys).threads,
      (t.pc = 3 → (gciRun v sched sys).clusterID = v) ∧
      (t.pc = 4 → t.result = v) := by
  induction sched generalizing sys with
  | nil => exact ⟨hcid, hth⟩
  | cons i rest ih =>
    have hstep := gci_step_inv v sys i hcid hth
    exact ih (gciStep v sys i) hstep.1 hstep.2

end AksEngine

open AksEngine in
/-- C5 (amended): under every interleaving of N concurrent first calls to
GetClusterID on one shared uninitialized receiver, every caller that has
returned observed the same deterministic value v; but the function-local
mutex provides no mutual exclusion, so racing callers may each compute the
value (see the counterexample) rather than computing it at most once with
later callers blocking. -/
theorem C5_concurrent_all_same (v : String) (n : Nat) (sched : List Nat) :
    ∀ t ∈ (gciRun v sched (gciInit n)).threads, t.pc = 4 → t.result = v := by
  have h := gci_run_inv v sched (gciInit n) (Or.inl rfl) ?_
  · exact fun t ht h4 => (h.2 t ht).2 h4
  · intro t ht
    rw [List.eq_of_mem_replicate ht]
    exact ⟨fun hpc => by simp at hpc, fun hpc => by simp at hpc⟩

/-- C5 counterexample: two racing callers that both pass the emptiness check
before either writes each compute the value — the computation happens twice,
refuting at-most-once computation with blocking. -/
theorem C5_concurrent_all_same_counterexample :
    (AksEngine.gciRun (AksEngine.computeClusterID AksEngine.masterOnlyProps) [0, 1, 0, 1]
      (AksEngine.gciInit 2)).computes = 2 := rfl

/-- C5 witness: in a completed two-caller run, the first caller returned the
shared value. -/
theorem C5_concurrent_all_same_witness :
    ((AksEngine.gciRun "x" [0, 1, 0, 1, 0, 1, 0, 1] (AksEngine.gciInit 2)).threads.getD 0
      { pc := 0, result := "" }).result = "x" :=
  C5_concurrent_all_same "x" 2 [0, 1, 0, 1, 0, 1, 0, 1] _ (by decide) (by decide)

open AksEngine in
/-- C2 (amended): on "10.240.0.0/16" GetFirstConsecutiveStaticIPAddress
returns "10.240.0.4" for a VMSS master and "10.240.255.5" otherwise. In
general, for a parsed CIDR the VMSS branch sets only the last octet to offset
4; the non-VMSS branch — whenever the prefix leaves host bits in some octet
(ones / 8 < address byte length; for a full-length prefix such as /32 the Go
code panics with an index out of range instead, see the counterexample) —
keeps the octets before the first host octet, sets the host bits of the first
host octet, fills the intermediate octets with 255 and sets the last octet to
offset 5. -/
theorem C2_first_consecutive_static_ip :
    (∀ m : MasterProfile, m.IsVirtualMachineScaleSets = false →
      m.GetFirstConsecutiveStaticIPAddress "10.240.0.0/16" = some "10.240.255.5") ∧
    (∀ m : MasterProfile, m.IsVirtualMachineScaleSets = true →
      m.GetFirstConsecutiveStaticIPAddress "10.240.0.0/16" = some "10.240.0.4") ∧
    (∀ (m : MasterProfile) (s : String) (ip mask : List Nat) (nn : Nat),
      GoNet.parseCIDR s = some (ip, mask) →
      GoNet.maskSize mask = (nn, 8 * ip.length) →
      m.IsVirtualMachineScaleSets = true → 0 < ip.length →
      ∃ out : List Nat,
        m.GetFirstConsecutiveStaticIPAddress s = some (GoNet.ipString out) ∧
        out.length = ip.length ∧
        out.getD (ip.length - 1) 0 = 4 ∧
        (∀ i, i < ip.length → i ≠ ip.length - 1 → out.getD i 0 = ip.getD i 0)) ∧
    (∀ (m : MasterProfile) (s : String) (ip mask : List Nat) (nn : Nat),
      GoNet.parseCIDR s = some (ip, mask) →
      GoNet.maskSize mask = (nn, 8 * ip.length) →
      m.IsVirtualMachineScaleSets = false → nn / 8 < ip.length →
      ∃ out : List Nat,
        m.GetFirstConsecutiveStaticIPAddress s = some (GoNet.ipString out) ∧
        out.length = ip.length ∧
        out.getD (ip.length - 1) 0 = 5 ∧
        (∀ i, i < nn / 8 → out.getD i 0 = ip.getD i 0) ∧
        (nn / 8 < ip.length - 1 →
          out.getD (nn / 8) 0 = (ip.getD (nn / 8) 0 ||| (2 ^ (8 - nn % 8) - 1))) ∧
        (∀ i, nn / 8 < i → i < ip.length - 1 → out.getD i 0 = 255)) := by
  have hconc : ∀ m : MasterProfile,
      m.GetFirstConsecutiveStaticIPAddress "10.240.0.0/16" =
        (if m.IsVirtualMachineScaleSets then some "10.240.0.4"
         else some "10.240.255.5") := fun _ => rfl
  refine ⟨?_, ?_, ?_, ?_⟩
  · intro m hv
    rw [hconc, hv]
    rfl
  · intro m hv
    rw [hconc, hv]
    rfl
  · intro m s ip mask nn hparse hms hv hlen
    simp only [MasterProfile.GetFirstConsecutiveStaticIPAddress, hparse, hms, hv,
      DefaultKubernetesFirstConsecutiveStaticIPOffsetVMSS, if_true]
    rw [Nat.mul_div_cancel_left ip.length (by norm_num)]
    refine ⟨ip.set (ip.length - 1) 4, rfl, by simp, ?_, ?_⟩
    · exact getD_set_self ip (ip.length - 1) 4 0 (by omega)
    · intro i hi hne
      exact getD_set_ne ip (ip.length - 1) i 4 0 (fun hh => hne hh.symm)
  · intro m s ip mask nn hparse hms hv hfo
    simp only [MasterProfile.GetFirstConsecutiveStaticIPAddress, hparse, hms, hv,
      DefaultKubernetesFirstConsecutiveStaticIPOffset, Bool.false_eq_true, if_false]
    rw [Nat.mul_div_cancel_left ip.length (by norm_num), if_pos hfo]
    set ip1 := ip.set (nn / 8) (ip.getD (nn / 8) 0 ||| (2 ^ (8 - nn % 8) - 1)) with hip1
    have hlen1 : ip1.length = ip.length := by simp [hip1]
    set ip2 := fillRange ip1 (nn / 8 + 1) (ip.length - 1) 255 with hip2
    have hlen2 : ip2.length = ip.length := by simp [hip2, fillRange_length, hlen1]
    refine ⟨ip2.set (ip.length - 1) 5, rfl, by simp [hlen2], ?_, ?_, ?_, ?_⟩
    · exact getD_set_self ip2 (ip.length - 1) 5 0 (by omega)
    · intro i hi
      rw [getD_set_ne ip2 (ip.length - 1) i 5 0 (by omega)]
      rw [hip2, fillRange_getD, if_neg (by omega)]
      exact getD_set_ne ip (nn / 8) i _ 0 (by omega)
    · intro hmid
      rw [getD_set_ne ip2 (ip.length - 1) (nn / 8) 5 0 (by omega)]
      rw [hip2, fillRange_getD, if_neg (by omega)]
      exact getD_set_self ip (nn / 8) _ 0 hfo
    · intro i hlo hhi
      rw [getD_set_ne ip2 (ip.length - 1) i 5 0 (by omega)]
      rw [hip2, fillRange_getD, if_pos (by constructor; omega; constructor; omega; omega)]

/-- C2 counterexample: "10.0.0.1/32" is a valid CIDR, yet the non-VMSS branch
panics (index out of range on the first host octet) instead of producing an
address ending in the offset 5. -/
theorem C2_first_consecutive_static_ip_counterexample :
    GoNet.parseCIDR "10.0.0.1/32" ≠ none ∧
    AksEngine.nonVmssMaster.GetFirstConsecutiveStaticIPAddress "10.0.0.1/32" = none :=
  ⟨by decide, rfl⟩

/-- C2 witness: both concrete branch results on "10.240.0.0/16", and the
general octet description instantiated there. -/
theorem C2_first_consecutive_static_ip_witness :
    (AksEngine.nonVmssMaster.GetFirstConsecutiveStaticIPAddress "10.240.0.0/16" =
      some "10.240.255.5") ∧
    (AksEngine.vmssMaster.GetFirstConsecutiveStaticIPAddress "10.240.0.0/16" =
      some "10.240.0.4") ∧
    (∃ out : List Nat,
      AksEngine.vmssMaster.GetFirstConsecutiveStaticIPAddress "10.240.0.0/16" =
        some (GoNet.ipString out) ∧
      out.length = 4 ∧ out.getD 3 0 = 4 ∧
      (∀ i, i < 4 → i ≠ 3 → out.getD i 0 = [10, 240, 0, 0].getD i 0)) ∧
    (∃ out : List Nat,
      AksEngine.nonVmssMaster.GetFirstConsecutiveStaticIPAddress "10.240.0.0/16" =
        some (GoNet.ipString out) ∧
      out.length = 4 ∧ out.getD 3 0 = 5 ∧
      (∀ i, i < 2 → out.getD i 0 = [10, 240, 0, 0].getD i 0) ∧
      (2 < 3 → out.getD 2 0 = ([10, 240, 0, 0].getD 2 0 ||| (2 ^ (8 - 16 % 8) - 1))) ∧
      (∀ i, 2 < i → i < 3 → out.getD i 0 = 255)) :=
  ⟨C2_first_consecutive_static_ip.1 AksEngine.nonVmssMaster rfl,
   C2_first_consecutive_static_ip.2.1 AksEngine.vmssMaster rfl,
   C2_first_consecutive_static_ip.2.2.1 AksEngine.vmssMaster "10.240.0.0/16"
     [10, 240, 0, 0] [255, 255, 0, 0] 16 rfl rfl rfl (by decide),
   C2_first_consecutive_static_ip.2.2.2 AksEngine.nonVmssMaster "10.240.0.0/16"
     [10, 240, 0, 0] [255, 255, 0, 0] 16 rfl rfl rfl (by decide)⟩
